import Mathlib

/-!
Shallow embedding of `src/fraud_detector.py` (a single-file Streamlit app that
builds a one-agent/one-task crewai crew, sends one prompt to a remote LLM, and
renders the validated `RiskAssessment` reply), together with theorems checking
the repository's specification against this embedding.

Modelling conventions:
* Python strings are Lean `String`s; f-string interpolation is `++`.
* The float `risk_score` is modelled as `ℚ`; its Python display
  (`str`/`repr` of a float with a finite decimal expansion) is `decimalString`.
* The external crewai/network call `crew.kickoff()` is an oracle parameter
  `kickoff : CrewSpec → Except String CrewResult`; an `Except.error` models a
  raised exception (transport failure, endpoint error, or the framework's
  pydantic validation of the model reply failing).
* Streamlit output (`st.success`, `st.markdown`, `st.error`) is modelled as an
  ordered list of `UIEvent`s emitted by one run of the script.
-/

set_option maxRecDepth 8192

namespace FraudDetector

/-- LLM configuration (fraud_detector.py lines 21-30). -/
structure LLMConfig where
  provider : String
  model : String
  api_key : String
  base_url : String
  temperature : ℚ
  max_tokens : Nat
deriving Repr, DecidableEq

/-- `llm = LLM(provider="openrouter", config={...})` (lines 21-30),
parameterised by the api key read at module init. -/
def llm (openrouter_api_key : String) : LLMConfig :=
  { provider := "openrouter"
    model := "meta-llama/llama-3.1-8b-instruct"
    api_key := openrouter_api_key
    base_url := "https://openrouter.ai/api/v1"
    temperature := 0
    max_tokens := 512 }

/-- The `RiskAssessment` pydantic model's fields (lines 33-36). A value of
this type is one that passed pydantic validation on construction. -/
structure RiskAssessment where
  risk_score : ℚ
  risk_summary : String
  risk_factors : List String
deriving Repr, DecidableEq

/-- The raw three fields of a model reply before validation. -/
structure RawReply where
  risk_score : ℚ
  risk_summary : String
  risk_factors : List String
deriving Repr, DecidableEq

/-- Pydantic validation of a raw reply against the `RiskAssessment` schema:
`risk_score` has `ge=0, le=10`, `risk_factors` has `min_items=3, max_items=3`
(lines 34-36). Construction succeeds iff all field constraints hold. -/
def RiskAssessment.validate (r : RawReply) : Except String RiskAssessment :=
  if r.risk_score < 0 then
    .error "1 validation error for RiskAssessment: risk_score greater than or equal to 0"
  else if 10 < r.risk_score then
    .error "1 validation error for RiskAssessment: risk_score less than or equal to 10"
  else if r.risk_factors.length < 3 then
    .error "1 validation error for RiskAssessment: risk_factors at least 3 items"
  else if 3 < r.risk_factors.length then
    .error "1 validation error for RiskAssessment: risk_factors at most 3 items"
  else
    .ok ⟨r.risk_score, r.risk_summary, r.risk_factors⟩

/-- `Process.sequential` vs `Process.hierarchical` from crewai. -/
inductive CrewProcess where
  | sequential
  | hierarchical
deriving Repr, DecidableEq

/-- The `Agent(...)` constructed in `run_fraud_crew` (lines 40-49): its
keyword arguments, in source order. -/
structure AgentSpec where
  role : String
  goal : String
  backstory : String
  tools : List String
  llm : LLMConfig
  verbose : Bool
  allow_delegation : Bool
  max_iter : Nat
deriving Repr, DecidableEq

/-- The `Task(...)` constructed in `run_fraud_crew` (lines 51-69).
`output_pydantic=RiskAssessment` is the validator the framework applies to
the model reply. -/
structure TaskSpec where
  description : String
  expected_output : String
  agent : AgentSpec
  output_pydantic : RawReply → Except String RiskAssessment

/-- The `Crew(...)` constructed in `run_fraud_crew` (lines 71-76). -/
structure CrewSpec where
  agents : List AgentSpec
  tasks : List TaskSpec
  process : CrewProcess
  verbose : Bool

/-- The agent built by `run_fraud_crew` (lines 40-49); `goal` interpolates
`name` and `industry` as in the source f-string. -/
def analyst (llm : LLMConfig) (name industry : String) : AgentSpec :=
  { role := "Senior Fraud Risk Analyst"
    goal := "Conduct fraud risk analysis for " ++ name ++ " in " ++ industry ++ " sector"
    backstory := "Expert in evaluating corporate fraud indicators and compliance risks."
    tools := []
    llm := llm
    verbose := true
    allow_delegation := false
    max_iter := 1 }

/-- The literal text of the task-description f-string before `{name}`. -/
def descPartA : String := "\n        Conduct a fraud risk analysis for "

/-- The literal text between `{name}` and `{industry}`. -/
def descPartB : String := ", a company in the "

/-- The literal text after `{industry}`. -/
def descPartC : String :=
  " sector.\n\n        Consider:\n        - Common fraud risks in this industry\n        - Regulatory compliance concerns\n        - Operational or financial red flags\n        - Market and competition context\n\n        Provide:\n        1. Risk score (0-10)\n        2. Summary of risk\n        3. 3 specific contributing factors\n        "

/-- The `Task.description` f-string (lines 52-65): only `name` and `industry`
are interpolated; the `info` argument of `run_fraud_crew` does not occur. -/
def task_description (name industry : String) : String :=
  descPartA ++ name ++ descPartB ++ industry ++ descPartC

/-- The task built by `run_fraud_crew` (lines 51-69). -/
def fraudTask (llm : LLMConfig) (name industry : String) : TaskSpec :=
  { description := task_description name industry
    expected_output :=
      "A structured JSON risk report with risk_score, risk_summary, and risk_factors."
    agent := analyst llm name industry
    output_pydantic := RiskAssessment.validate }

/-- The crew configuration assembled by `run_fraud_crew(name, industry, info)`
(lines 39-78). The Python function ends with `return crew.kickoff()`; here the
crew value is returned and the external `kickoff` call is applied by `script`.
Note that the `info` parameter is accepted but used nowhere in the body. -/
def run_fraud_crew (llm : LLMConfig) (name industry info : String) : CrewSpec :=
  { agents := [analyst llm name industry]
    tasks := [fraudTask llm name industry]
    process := .sequential
    verbose := false }

/-- crewai `TaskOutput`: its `pydantic` attribute is `Optional[BaseModel]`. -/
structure TaskOutput where
  pydantic : Option RiskAssessment
deriving Repr, DecidableEq

/-- The duck-typed attributes the fallback branch (line 93) may read off a raw
result object: each is `none` when the attribute is missing (so accessing it
raises `AttributeError`) and carries an UNVALIDATED value otherwise. -/
structure RawObject where
  risk_score : Option ℚ
  risk_summary : Option String
  risk_factors : Option (List String)
deriving Repr, DecidableEq

/-- The object returned by `crew.kickoff()`, as the handler (lines 88-93)
probes it: `pydantic = some r` models `hasattr(result, 'pydantic')` holding a
validated model, `tasks_output = some l` models `hasattr(result,
'tasks_output')` holding a list, and `rawFields` are the result object's own
duck-typed fields, read only in the `else` fallback. -/
structure CrewResult where
  pydantic : Option RiskAssessment
  tasks_output : Option (List TaskOutput)
  rawFields : RawObject

/-- The possible values of the local variable `report` after lines 88-93. -/
inductive Report where
  /-- `report` is a validated `RiskAssessment`. -/
  | assessment (r : RiskAssessment)
  /-- `report` is Python `None` (a `tasks_output[0].pydantic` that was None);
  every attribute access on it raises. -/
  | pyNone
  /-- `report = result` itself (the `else` fallback of line 93): unvalidated. -/
  | rawSelf (o : RawObject)

/-- Lines 88-93: `if hasattr(result, 'pydantic'): report = result.pydantic`,
`elif hasattr(result, 'tasks_output') and len(result.tasks_output) > 0:
report = result.tasks_output[0].pydantic`, `else: report = result`. -/
def extractReport (result : CrewResult) : Report :=
  match result.pydantic with
  | some r => .assessment r
  | none =>
    match result.tasks_output with
    | some (out0 :: _) =>
      match out0.pydantic with
      | some r => .assessment r
      | none => .pyNone
    | some [] => .rawSelf result.rawFields
    | none => .rawSelf result.rawFields

/-- One Streamlit output element, in emission order. -/
inductive UIEvent where
  | success (msg : String)
  | markdown (text : String)
  | error (msg : String)
deriving Repr, DecidableEq

/-- Digits of the decimal expansion of `num/den` (with `num < den`),
fuel-bounded like a float's 17 significant digits. -/
def fracDigits : Nat → Nat → Nat → List Nat
  | 0, _, _ => []
  | fuel + 1, num, den =>
    if num = 0 then []
    else (10 * num) / den :: fracDigits fuel ((10 * num) % den) den

/-- Decimal rendering of a rational, modelling the Python `str` of a float
with a finite decimal expansion (e.g. `7.5 ↦ "7.5"`, `11 ↦ "11.0"`), as
interpolated by the f-string on line 97. -/
def decimalString (q : ℚ) : String :=
  let sign := if q.num < 0 then "-" else ""
  let n := q.num.natAbs
  let d := q.den
  let ds := fracDigits 17 (n % d) d
  let frac := if ds.isEmpty then "0" else String.join (ds.map (fun k => toString k))
  sign ++ toString (n / d) ++ "." ++ frac

/-- `st.success("✅ Analysis Complete!")` (line 96). -/
def successBanner : String := "✅ Analysis Complete!"

/-- The markdown of line 97: `f"### 🎯 Risk Score: `{report.risk_score}/10`"`. -/
def scoreLine (score : ℚ) : String :=
  "### 🎯 Risk Score: `" ++ decimalString score ++ "/10`"

/-- The markdown of line 98: `f"**📋 Summary:** {report.risk_summary}"`. -/
def summaryLine (summary : String) : String := "**📋 Summary:** " ++ summary

/-- The markdown of line 99. -/
def factorsHeader : String := "**⚠️ Top Risk Factors:**"

/-- One iteration of the loop on lines 100-101: `f"- {i}. {factor}"`. -/
def factorLine (i : Nat) (factor : String) : String :=
  "- " ++ toString i ++ ". " ++ factor

/-- The loop `for i, factor in enumerate(report.risk_factors, 1)`. -/
def factorLines (factors : List String) : List String :=
  (List.enumFrom 1 factors).map (fun p => factorLine p.1 p.2)

/-- The full display of lines 96-101 for a report exposing all three fields. -/
def displayFields (score : ℚ) (summary : String) (factors : List String) :
    List UIEvent :=
  [.success successBanner,
   .markdown (scoreLine score),
   .markdown (summaryLine summary),
   .markdown factorsHeader]
  ++ (factorLines factors).map .markdown

/-- `st.error(f"❌ Error: {e}")` (line 104). -/
def errorEvent (e : String) : UIEvent := .error ("❌ Error: " ++ e)

/-- The exception message for a missing attribute. -/
def attrError (attr : String) : String :=
  "AttributeError: object has no attribute " ++ attr

/-- Display of the `else` fallback where `report = result`: attributes are
read in source order (score, then summary, then header, then factors), each
missing one raising an `AttributeError` that the outer `except` turns into
`st.error` AFTER the elements already emitted. -/
def displayRaw (o : RawObject) : List UIEvent :=
  match o.risk_score with
  | none => [.success successBanner, errorEvent (attrError "risk_score")]
  | some s =>
    match o.risk_summary with
    | none =>
      [.success successBanner, .markdown (scoreLine s),
       errorEvent (attrError "risk_summary")]
    | some sum =>
      match o.risk_factors with
      | none =>
        [.success successBanner, .markdown (scoreLine s),
         .markdown (summaryLine sum), .markdown factorsHeader,
         errorEvent (attrError "risk_factors")]
      | some fs => displayFields s sum fs

/-- Lines 96-101 applied to the extracted `report`, with exceptions flowing
to the `except` branch (line 103-104). -/
def displayReport : Report → List UIEvent
  | .assessment r => displayFields r.risk_score r.risk_summary r.risk_factors
  | .pyNone => [.success successBanner, errorEvent (attrError "risk_score")]
  | .rawSelf o => displayRaw o

/-- Python truthiness of a string: empty is falsy. -/
def pyTruthy (s : String) : Bool := s != ""

/-- Lines 18-19: `openrouter_api_key = os.getenv("OPENROUTER_API_KEY")`
followed by `assert openrouter_api_key, "❌ OPENROUTER_API_KEY not found in
environment!"`. `env` is the variable's value in the process environment
(`none` when absent); a falsy value (absent or empty) raises AssertionError
at module initialisation, before the form or any request. -/
def moduleInit (env : Option String) : Except String String :=
  match env with
  | none => .error "❌ OPENROUTER_API_KEY not found in environment!"
  | some key =>
    if pyTruthy key then .ok key
    else .error "❌ OPENROUTER_API_KEY not found in environment!"

/-- The overall result of one execution of the script. -/
inductive ScriptResult where
  /-- The module-level `assert` fired: the page never renders. -/
  | assertionError (msg : String)
  /-- The page rendered, emitting these output events (empty when the
  button was not clicked). -/
  | page (events : List UIEvent)
deriving Repr, DecidableEq

/-- One execution of the whole script: module init (lines 18-19), then, when
`run_analysis` (the button) is true, the `try` block of lines 84-101 with the
external `kickoff` oracle, whose `except` is lines 103-104. The second
component lists the crews passed to `crew.kickoff()` during the run. -/
def script (env : Option String) (customer_name industry description : String)
    (run_analysis : Bool) (kickoff : CrewSpec → Except String CrewResult) :
    ScriptResult × List CrewSpec :=
  match moduleInit env with
  | .error m => (.assertionError m, [])
  | .ok key =>
    if run_analysis then
      let crew := run_fraud_crew (llm key) customer_name industry description
      match kickoff crew with
      | .error e => (.page [errorEvent e], [crew])
      | .ok result => (.page (displayReport (extractReport result)), [crew])
    else (.page [], [])

/-- A kickoff oracle for a run where transport and endpoint succeed and the
model replies with the raw fields `reply`: the framework validates the reply
against the task's `output_pydantic` schema; on success the `CrewOutput`
carries the validated model in both `pydantic` and `tasks_output[0].pydantic`,
on failure the exception propagates out of `crew.kickoff()`. -/
def kickoffOfReply (reply : RawReply) : CrewSpec → Except String CrewResult :=
  fun _ =>
    (RiskAssessment.validate reply).map fun r =>
      { pydantic := some r
        tasks_output := some [{ pydantic := some r }]
        rawFields := { risk_score := none, risk_summary := none, risk_factors := none } }

/-- Two runs executed in sequence on the same environment and oracle: the
script re-executes from the top for each button click; nothing persists. -/
def runSequence (env : Option String) (i1 i2 : String × String × String)
    (kickoff : CrewSpec → Except String CrewResult) :
    (ScriptResult × List CrewSpec) × (ScriptResult × List CrewSpec) :=
  (script env i1.1 i1.2.1 i1.2.2 true kickoff,
   script env i2.1 i2.2.1 i2.2.2 true kickoff)

/-- `charsPrefixOf pat l`: `pat` is a prefix of `l` (character lists). -/
def charsPrefixOf : List Char → List Char → Bool
  | [], _ => true
  | _ :: _, [] => false
  | a :: as, b :: bs => (a == b) && charsPrefixOf as bs

/-- `charsSubstr pat l`: `pat` occurs contiguously somewhere in `l`. -/
def charsSubstr (pat : List Char) : List Char → Bool
  | [] => charsPrefixOf pat []
  | c :: rest => charsPrefixOf pat (c :: rest) || charsSubstr pat rest

/-- `strContains s pat`: `pat` occurs verbatim as a substring of `s`. -/
def strContains (s pat : String) : Bool := charsSubstr pat.toList s.toList

theorem toList_append (a b : String) : (a ++ b).toList = a.toList ++ b.toList := by
  cases a
  cases b
  rfl

theorem charsPrefixOf_append_self (l t : List Char) :
    charsPrefixOf l (l ++ t) = true := by
  induction l with
  | nil => rfl
  | cons c cs ih => simp [charsPrefixOf, ih]

theorem charsSubstr_of_prefixOf (pat l : List Char) (h : charsPrefixOf pat l = true) :
    charsSubstr pat l = true := by
  cases l with
  | nil => simpa [charsSubstr] using h
  | cons c t => simp [charsSubstr, h]

theorem charsSubstr_append_left (pat pre l : List Char)
    (h : charsSubstr pat l = true) : charsSubstr pat (pre ++ l) = true := by
  induction pre with
  | nil => simpa using h
  | cons c cs ih => simp [charsSubstr, ih]

theorem strContains_of_toList (s pat : String) (pre post : List Char)
    (h : s.toList = pre ++ (pat.toList ++ post)) : strContains s pat = true := by
  unfold strContains
  rw [h]
  exact charsSubstr_append_left _ _ _
    (charsSubstr_of_prefixOf _ _ (charsPrefixOf_append_self _ _))

example : strContains "hello world" "lo w" = true := by decide
example : strContains "hello world" "zq" = false := by decide
example : decimalString (mkRat 15 2) = "7.5" := by decide
example : decimalString (11 : ℚ) = "11.0" := by decide
example : decimalString (0 : ℚ) = "0.0" := by decide
example : mkRat 15 2 = (15 / 2 : ℚ) := by norm_num [mkRat]
example : strContains (task_description "A" "B") "zqz" = false := by decide

theorem pyTruthy_of_ne (s : String) (h : s ≠ "") : pyTruthy s = true := by
  simp [pyTruthy, h]

theorem moduleInit_ok (key : String) (h : key ≠ "") :
    moduleInit (some key) = .ok key := by
  simp [moduleInit, pyTruthy_of_ne key h]

/-- Shape of one clicked run with a valid key: the crew is kicked off exactly
once and the page is either the single error event or the displayed report. -/
theorem script_clicked (key name industry info : String) (h : key ≠ "")
    (kickoff : CrewSpec → Except String CrewResult) :
    script (some key) name industry info true kickoff
      = (.page (match kickoff (run_fraud_crew (llm key) name industry info) with
                | .error e => [errorEvent e]
                | .ok result => displayReport (extractReport result)),
         [run_fraud_crew (llm key) name industry info]) := by
  cases hk : kickoff (run_fraud_crew (llm key) name industry info) with
  | error e => simp [script, moduleInit_ok key h, hk]
  | ok r => simp [script, moduleInit_ok key h, hk]

/-- C1 (counterexample): with inputs ("A", "B", "zqz"), the task description
assembled by `run_fraud_crew` does not contain the description value "zqz"
as a substring — the `info` argument is never interpolated — refuting the
claim that the prompt contains all three input values verbatim. -/
theorem C1_counterexample :
    ((run_fraud_crew (llm "k") "A" "B" "zqz").tasks.map
      (fun t => strContains t.description "zqz")) = [false] := by
  decide

/-- C1 (amended): the prompt assembled by `run_fraud_crew` contains the name
and industry values verbatim as substrings, but it is independent of the
description argument, which is not interpolated. -/
theorem C1_prompt_contains_name_and_industry (key name industry info : String) :
    (run_fraud_crew (llm key) name industry info).tasks
        = [fraudTask (llm key) name industry]
    ∧ (fraudTask (llm key) name industry).description = task_description name industry
    ∧ strContains (task_description name industry) name = true
    ∧ strContains (task_description name industry) industry = true := by
  refine ⟨rfl, rfl, ?_, ?_⟩
  · exact strContains_of_toList _ _ descPartA.toList
      (descPartB.toList ++ (industry.toList ++ descPartC.toList))
      (by simp [task_description, toList_append, List.append_assoc])
  · exact strContains_of_toList _ _
      (descPartA.toList ++ (name.toList ++ descPartB.toList)) descPartC.toList
      (by simp [task_description, toList_append, List.append_assoc])

/-- C4: when OPENROUTER_API_KEY is absent from the environment, the script
halts with the module-level assertion before rendering anything, for any
inputs and any button state, and the kickoff oracle is never invoked — no
model call happens in that run. -/
theorem C4_missing_key_halts_before_any_request (name industry info : String)
    (clicked : Bool) (kickoff : CrewSpec → Except String CrewResult) :
    script none name industry info clicked kickoff
      = (.assertionError "❌ OPENROUTER_API_KEY not found in environment!", []) :=
  rfl

/-- C8: the result of the second of two sequential runs is a function of the
second run's inputs alone — replacing the first run's inputs does not change
it, and it equals a single run on the second inputs; no state flows between
runs (each run rebuilds its prompt, agent, task and crew, and a
`RiskAssessment` value is never mutated in this embedding). -/
theorem C8_second_run_depends_only_on_own_inputs (env : Option String)
    (i1 i1' i2 : String × String × String)
    (kickoff : CrewSpec → Except String CrewResult) :
    (runSequence env i1 i2 kickoff).2 = (runSequence env i1' i2 kickoff).2
    ∧ (runSequence env i1 i2 kickoff).2
        = script env i2.1 i2.2.1 i2.2.2 true kickoff :=
  ⟨rfl, rfl⟩

/-- C10: an empty-string credential behaves exactly like an absent one — the
module-level truthiness assertion halts the script before anything renders —
while any non-empty key passes the check and a bad key is detected only when
the remote call itself fails, surfacing as the run's error message. -/
theorem C10_empty_key_is_absent_invalid_key_is_late (name industry info : String)
    (clicked : Bool) (kickoff : CrewSpec → Except String CrewResult) :
    script (some "") name industry info clicked kickoff
        = script none name industry info clicked kickoff
    ∧ script (some "") name industry info clicked kickoff
        = (.assertionError "❌ OPENROUTER_API_KEY not found in environment!", [])
    ∧ ∀ key : String, key ≠ "" →
        moduleInit (some key) = .ok key
        ∧ ∀ e, kickoff (run_fraud_crew (llm key) name industry info) = .error e →
            script (some key) name industry info true kickoff
              = (.page [errorEvent e], [run_fraud_crew (llm key) name industry info]) := by
  refine ⟨rfl, rfl, fun key hkey => ⟨moduleInit_ok key hkey, fun e he => ?_⟩⟩
  rw [script_clicked key name industry info hkey kickoff, he]

/-- C10 witness: instantiated at the empty key, the key "badkey" and a
kickoff that fails with "401". -/
theorem C10_witness :
    script (some "") "n" "i" "d" true (fun _ => .error "401")
        = script none "n" "i" "d" true (fun _ => .error "401")
    ∧ script (some "badkey") "n" "i" "d" true (fun _ => .error "401")
        = (.page [errorEvent "401"], [run_fraud_crew (llm "badkey") "n" "i" "d"]) :=
  ⟨(C10_empty_key_is_absent_invalid_key_is_late "n" "i" "d" true
      (fun _ => .error "401")).1,
   ((C10_empty_key_is_absent_invalid_key_is_late "n" "i" "d" true
      (fun _ => .error "401")).2.2 "badkey" (by decide)).2 "401" rfl⟩

/-- C2: a model reply whose risk_score lies outside [0,10] fails pydantic
construction of `RiskAssessment`, and the run surfaces as a single error
page — no score, summary or factor is displayed. -/
theorem C2_out_of_range_score_rejected (key name industry info : String)
    (reply : RawReply) (hkey : key ≠ "")
    (h : reply.risk_score < 0 ∨ 10 < reply.risk_score) :
    (∃ e, RiskAssessment.validate reply = .error e)
    ∧ ∃ e, script (some key) name industry info true (kickoffOfReply reply)
        = (.page [errorEvent e], [run_fraud_crew (llm key) name industry info]) := by
  have hv : ∃ e, RiskAssessment.validate reply = .error e := by
    rcases h with h | h
    · exact ⟨"1 validation error for RiskAssessment: risk_score greater than or equal to 0",
        by simp [RiskAssessment.validate, h]⟩
    · have h0 : ¬ reply.risk_score < 0 := by linarith
      exact ⟨"1 validation error for RiskAssessment: risk_score less than or equal to 10",
        by simp [RiskAssessment.validate, h0, h]⟩
  obtain ⟨e, he⟩ := hv
  have hk : kickoffOfReply reply (run_fraud_crew (llm key) name industry info)
      = .error e := by
    simp [kickoffOfReply, he, Except.map]
  refine ⟨⟨e, he⟩, e, ?_⟩
  rw [script_clicked key name industry info hkey (kickoffOfReply reply), hk]

/-- C2 witness: a reply with risk_score = 11 and three factors is rejected
and the run fails. -/
theorem C2_witness :
    (∃ e, RiskAssessment.validate ⟨11, "s", ["a", "b", "c"]⟩ = .error e)
    ∧ ∃ e, script (some "k") "n" "i" "d" true
          (kickoffOfReply ⟨11, "s", ["a", "b", "c"]⟩)
        = (.page [errorEvent e], [run_fraud_crew (llm "k") "n" "i" "d"]) :=
  C2_out_of_range_score_rejected "k" "n" "i" "d" ⟨11, "s", ["a", "b", "c"]⟩
    (by decide) (Or.inr (by norm_num))

/-- C3: a model reply whose risk_factors list does not have exactly 3 items
fails validation against the `RiskAssessment` schema and the run fails
rather than displaying a result. -/
theorem C3_wrong_factor_count_rejected (key name industry info : String)
    (reply : RawReply) (hkey : key ≠ "")
    (h : reply.risk_factors.length ≠ 3) :
    (∃ e, RiskAssessment.validate reply = .error e)
    ∧ ∃ e, script (some key) name industry info true (kickoffOfReply reply)
        = (.page [errorEvent e], [run_fraud_crew (llm key) name industry info]) := by
  have hv : ∃ e, RiskAssessment.validate reply = .error e := by
    unfold RiskAssessment.validate
    split
    · exact ⟨_, rfl⟩
    · split
      · exact ⟨_, rfl⟩
      · split
        · exact ⟨_, rfl⟩
        · split
          · exact ⟨_, rfl⟩
          · exfalso
            omega
  obtain ⟨e, he⟩ := hv
  have hk : kickoffOfReply reply (run_fraud_crew (llm key) name industry info)
      = .error e := by
    simp [kickoffOfReply, he, Except.map]
  refine ⟨⟨e, he⟩, e, ?_⟩
  rw [script_clicked key name industry info hkey (kickoffOfReply reply), hk]

/-- C3 witness: a reply with only 2 factors is rejected and the run fails. -/
theorem C3_witness :
    (∃ e, RiskAssessment.validate ⟨5, "s", ["a", "b"]⟩ = .error e)
    ∧ ∃ e, script (some "k") "n" "i" "d" true (kickoffOfReply ⟨5, "s", ["a", "b"]⟩)
        = (.page [errorEvent e], [run_fraud_crew (llm "k") "n" "i" "d"]) :=
  C3_wrong_factor_count_rejected "k" "n" "i" "d" ⟨5, "s", ["a", "b"]⟩
    (by decide) (by decide)

/-- C5: every failure raised inside a run — a kickoff that fails for any
reason, transport or schema validation alike — is caught at the single
try/except boundary and becomes exactly one user-visible error event built by
the one formatter `errorEvent`; the kickoff is attempted exactly once (no
retry) and nothing else is displayed. -/
theorem C5_failures_single_boundary_single_message (key name industry info : String)
    (hkey : key ≠ "") (kickoff : CrewSpec → Except String CrewResult) :
    (script (some key) name industry info true kickoff).2
        = [run_fraud_crew (llm key) name industry info]
    ∧ ∀ e, kickoff (run_fraud_crew (llm key) name industry info) = .error e →
        (script (some key) name industry info true kickoff).1
          = .page [errorEvent e] := by
  rw [script_clicked key name industry info hkey kickoff]
  refine ⟨rfl, fun e he => ?_⟩
  rw [he]

/-- C5 witness: a kickoff failing with "boom" yields one kickoff attempt and
the single error page. -/
theorem C5_witness :
    (script (some "k") "n" "i" "d" true (fun _ => .error "boom")).2
        = [run_fraud_crew (llm "k") "n" "i" "d"]
    ∧ (script (some "k") "n" "i" "d" true (fun _ => .error "boom")).1
        = .page [errorEvent "boom"] :=
  ⟨(C5_failures_single_boundary_single_message "k" "n" "i" "d" (by decide)
      (fun _ => .error "boom")).1,
   (C5_failures_single_boundary_single_message "k" "n" "i" "d" (by decide)
      (fun _ => .error "boom")).2 "boom" rfl⟩

/-- C6: a clicked run invokes kickoff on exactly one crew, built with a single
agent and a single task, sequential process, max_iter 1, no delegation, no
tools, and the fixed decoding parameters temperature 0, max_tokens 512 and
model "meta-llama/llama-3.1-8b-instruct". -/
theorem C6_single_invocation_fixed_params (key name industry info : String)
    (hkey : key ≠ "") (kickoff : CrewSpec → Except String CrewResult) :
    (script (some key) name industry info true kickoff).2
        = [run_fraud_crew (llm key) name industry info]
    ∧ (run_fraud_crew (llm key) name industry info).agents
        = [analyst (llm key) name industry]
    ∧ (run_fraud_crew (llm key) name industry info).tasks
        = [fraudTask (llm key) name industry]
    ∧ (run_fraud_crew (llm key) name industry info).process = .sequential
    ∧ (analyst (llm key) name industry).max_iter = 1
    ∧ (analyst (llm key) name industry).allow_delegation = false
    ∧ (analyst (llm key) name industry).tools = []
    ∧ (analyst (llm key) name industry).llm.temperature = 0
    ∧ (analyst (llm key) name industry).llm.max_tokens = 512
    ∧ (analyst (llm key) name industry).llm.model
        = "meta-llama/llama-3.1-8b-instruct" := by
  rw [script_clicked key name industry info hkey kickoff]
  exact ⟨rfl, rfl, rfl, rfl, rfl, rfl, rfl, rfl, rfl, rfl⟩

/-- C6 witness: instantiated at concrete inputs and a concrete oracle. -/
theorem C6_witness :
    (script (some "k") "n" "i" "d" true (fun _ => .error "x")).2
        = [run_fraud_crew (llm "k") "n" "i" "d"]
    ∧ (run_fraud_crew (llm "k") "n" "i" "d").agents = [analyst (llm "k") "n" "i"]
    ∧ (run_fraud_crew (llm "k") "n" "i" "d").tasks = [fraudTask (llm "k") "n" "i"]
    ∧ (run_fraud_crew (llm "k") "n" "i" "d").process = .sequential
    ∧ (analyst (llm "k") "n" "i").max_iter = 1
    ∧ (analyst (llm "k") "n" "i").allow_delegation = false
    ∧ (analyst (llm "k") "n" "i").tools = []
    ∧ (analyst (llm "k") "n" "i").llm.temperature = 0
    ∧ (analyst (llm "k") "n" "i").llm.max_tokens = 512
    ∧ (analyst (llm "k") "n" "i").llm.model = "meta-llama/llama-3.1-8b-instruct" :=
  C6_single_invocation_fixed_params "k" "n" "i" "d" (by decide) (fun _ => .error "x")

/-- C7: for every validated RiskAssessment handed to the renderer, the output
is the success banner, a score line formatted around `<value>/10`, the summary
text, and exactly the 3 factors as a list numbered 1..3 in the order of
`risk_factors`. -/
theorem C7_renderer_shows_score_summary_numbered_factors (r : RiskAssessment)
    (a b c : String) (h : r.risk_factors = [a, b, c]) :
    displayReport (.assessment r)
        = [.success successBanner,
           .markdown (scoreLine r.risk_score),
           .markdown (summaryLine r.risk_summary),
           .markdown factorsHeader,
           .markdown (factorLine 1 a),
           .markdown (factorLine 2 b),
           .markdown (factorLine 3 c)]
    ∧ scoreLine r.risk_score
        = "### 🎯 Risk Score: `" ++ decimalString r.risk_score ++ "/10`"
    ∧ factorLine 1 a = "- 1. " ++ a
    ∧ factorLine 2 b = "- 2. " ++ b
    ∧ factorLine 3 c = "- 3. " ++ c := by
  refine ⟨?_, rfl, rfl, rfl, rfl⟩
  simp [displayReport, displayFields, h, factorLines, List.enumFrom]

/-- C7 witness: the spec's example reply (score 7.5 = mkRat 15 2, summary
"moderate risk", three factors) renders as "7.5/10", the summary, and three
numbered factor lines in order. -/
theorem C7_witness :
    decimalString (mkRat 15 2) = "7.5"
    ∧ displayReport (.assessment ⟨mkRat 15 2, "moderate risk", ["f1", "f2", "f3"]⟩)
        = [.success successBanner,
           .markdown (scoreLine (mkRat 15 2)),
           .markdown (summaryLine "moderate risk"),
           .markdown factorsHeader,
           .markdown (factorLine 1 "f1"),
           .markdown (factorLine 2 "f2"),
           .markdown (factorLine 3 "f3")] :=
  ⟨by decide,
   (C7_renderer_shows_score_summary_numbered_factors
      ⟨mkRat 15 2, "moderate risk", ["f1", "f2", "f3"]⟩ "f1" "f2" "f3" rfl).1⟩

/-- C9: when the kickoff result exposes neither a usable `pydantic` attribute
nor a non-empty `tasks_output`, the fallback of line 93 hands the raw result
itself to the renderer with no validation, so whatever fields it carries —
including a score above 10 or a factor list that is not 3 long — are
displayed as-is. -/
theorem C9_raw_fallback_bypasses_validation (result : CrewResult)
    (hp : result.pydantic = none)
    (ht : result.tasks_output = none ∨ result.tasks_output = some []) :
    extractReport result = .rawSelf result.rawFields
    ∧ ∀ s sum fs, result.rawFields = ⟨some s, some sum, some fs⟩ →
        displayReport (extractReport result) = displayFields s sum fs := by
  have hext : extractReport result = .rawSelf result.rawFields := by
    rcases ht with ht | ht <;> simp [extractReport, hp, ht]
  refine ⟨hext, fun s sum fs hraw => ?_⟩
  rw [hext, hraw]
  simp [displayReport, displayRaw]

/-- C9 witness: a result with neither attribute, carrying a score of 11 and
only 2 factors, is displayed unvalidated at the display boundary. -/
theorem C9_witness :
    displayReport
        (extractReport ⟨none, none, ⟨some 11, some "bad", some ["a", "b"]⟩⟩)
        = displayFields 11 "bad" ["a", "b"]
    ∧ (10 : ℚ) < 11
    ∧ (["a", "b"] : List String).length ≠ 3 :=
  ⟨(C9_raw_fallback_bypasses_validation
      ⟨none, none, ⟨some 11, some "bad", some ["a", "b"]⟩⟩ rfl (Or.inl rfl)).2
      11 "bad" ["a", "b"] rfl,
   by norm_num, by decide⟩

end FraudDetector
